import Mathlib

/-!
Verification of the deathnode decision-and-coordination engine against its
natural-language specification.  Go maps `map[string]string` are embedded as
association lists `List (String × String)` of (key, value) pairs; outbound
calls to the cloud, Mesos and Aurora clients are embedded as trace events;
the injected clock is a rational-valued time parameter; fallible external
calls are driven by explicit oracles.
-/

namespace Deathnode

/-! ## Aurora API client (src/aurora/client.go, second file) -/

namespace aurora

/-- MaintenanceHostNames, src/aurora/client.go: the `hostNames` list of the JSON payload. -/
structure MaintenanceHostNames where
  hostNames : List String
  deriving DecidableEq

/-- MaintenanceRequest, src/aurora/client.go: payload for Aurora maintenance API calls, serialised as a JSON object with the single key `hosts`. -/
structure MaintenanceRequest where
  hosts : MaintenanceHostNames
  deriving DecidableEq

/-- genMaintenanceCallPayload, src/aurora/client.go lines 583-596: collects the values (IPs) of the host map into the hostNames list. -/
def genMaintenanceCallPayload (hosts : List (String × String)) : MaintenanceRequest :=
  { hosts := { hostNames := hosts.map (fun h => h.2) } }

/-- An HTTP POST issued by the aurora client: the target URL and the JSON payload. -/
structure PostCall where
  url : String
  payload : MaintenanceRequest
  deriving DecidableEq

/-- StartMaintenance, src/aurora/client.go lines 563-567: POST APIUrl ++ "/startMaintenance". -/
def StartMaintenance (apiUrl : String) (hosts : List (String × String)) : PostCall :=
  { url := apiUrl ++ "/startMaintenance", payload := genMaintenanceCallPayload hosts }

/-- EndMaintenance, src/aurora/client.go lines 570-574: POST APIUrl ++ "/drainHosts". -/
def EndMaintenance (apiUrl : String) (hosts : List (String × String)) : PostCall :=
  { url := apiUrl ++ "/drainHosts", payload := genMaintenanceCallPayload hosts }

/-- DrainHosts, src/aurora/client.go lines 577-581: POST APIUrl ++ "/drainHosts". -/
def DrainHosts (apiUrl : String) (hosts : List (String × String)) : PostCall :=
  { url := apiUrl ++ "/drainHosts", payload := genMaintenanceCallPayload hosts }

end aurora

/-! ## Mesos maintenance payload (src/aurora/client.go, first file, lines 276-302) -/

namespace mesos

/-- MaintenanceMachinesID: one {hostname, ip} entry of a maintenance window. -/
structure MaintenanceMachinesID where
  hostname : String
  ip : String
  deriving DecidableEq

/-- MaintenanceStart: the unavailability start, in nanoseconds. -/
structure MaintenanceStart where
  nanoseconds : Int
  deriving DecidableEq

/-- MaintenanceUnavailability wraps the start timestamp. -/
structure MaintenanceUnavailability where
  start : MaintenanceStart
  deriving DecidableEq

/-- MaintenanceWindow: machine ids plus their unavailability. -/
structure MaintenanceWindow where
  machinesIds : List MaintenanceMachinesID
  unavailability : MaintenanceUnavailability
  deriving DecidableEq

/-- MaintenanceRequest: the full Mesos maintenance payload, a list of windows. -/
structure MaintenanceRequest where
  windows : List MaintenanceWindow
  deriving DecidableEq

/-- genMaintenanceCallPayload, src/aurora/client.go lines 276-302: one window holding one machine id per host-map entry, unavailability start nanoseconds set to 1. -/
def genMaintenanceCallPayload (hosts : List (String × String)) : MaintenanceRequest :=
  { windows := [ { machinesIds := hosts.map (fun h => { hostname := h.1, ip := h.2 }),
                   unavailability := { start := { nanoseconds := 1 } } } ] }

/-- getMesosTasksRecursive, src/aurora/client.go lines 232-248.  `fetch` embeds the paged HTTP GET, mapping an offset to that page's task list or an error.  The returned pair is the accumulated task list (the `tasksResponse` the Go code mutates in place) and the error the call itself returns.  The Go recursion is bounded here by `fuel`; the error of the recursive call is discarded, exactly as on line 244 of the source. -/
def getMesosTasksRecursive (fetch : Nat → Except String (List String)) :
    Nat → List String → Nat → List String × Option String
  | fuel, acc, offset =>
    match fetch offset with
    | Except.error e => (acc, some e)
    | Except.ok ts =>
      let acc2 := acc ++ ts
      if ts.length = 100 then
        match fuel with
        | 0 => (acc2, none)
        | fuel2 + 1 =>
          let r := getMesosTasksRecursive fetch fuel2 acc2 (offset + 100)
          (r.1, none)
      else
        (acc2, none)

/-- GetMesosTasks, src/aurora/client.go lines 222-230: runs the recursion from offset 0 on an empty accumulator and propagates only the error the top-level recursive call itself returns. -/
def GetMesosTasks (fetch : Nat → Except String (List String)) (fuel : Nat) :
    Except String (List String) :=
  let r := getMesosTasksRecursive fetch fuel [] 0
  match r.2 with
  | some e => Except.error e
  | none => Except.ok r.1

end mesos

/-! ## Aurora monitor (src/monitor/aurora.go) -/

namespace monitor

/-- Aurora maintenance snapshot.  The aurora.MaintenanceResponse struct itself is outside src; its shape is pinned by its uses in src/monitor/aurora.go (Draining read as a map by key lookup, Drained and Scheduled as slices) and by the spec: GetMaintenance returns DRAINING as map host to task id, DRAINED and SCHEDULED as host lists. -/
structure MaintenanceResponse where
  draining : List (String × String)
  drained : List String
  scheduled : List String
  deriving DecidableEq

/-- IsDraining, src/monitor/aurora.go lines 97-106: key membership in the DRAINING map. -/
def IsDraining (cache : MaintenanceResponse) (ipAddress : String) : Bool :=
  cache.draining.any (fun p => p.1 == ipAddress)

/-- IsDrained, src/monitor/aurora.go lines 109-119: linear scan of the DRAINED slice. -/
def IsDrained (cache : MaintenanceResponse) (ipAddress : String) : Bool :=
  cache.drained.any (fun h => h == ipAddress)

/-- isScheduled, src/monitor/aurora.go lines 122-132: linear scan of the SCHEDULED slice. -/
def isScheduled (cache : MaintenanceResponse) (host : String) : Bool :=
  cache.scheduled.any (fun h => h == host)

/-- DrainHosts, src/monitor/aurora.go lines 56-69: the host map the monitor forwards to the Aurora connection, keeping a supplied (dns, ip) pair when the ip is neither DRAINED nor DRAINING in the current snapshot. -/
def DrainHosts (cache : MaintenanceResponse) (hosts : List (String × String)) :
    List (String × String) :=
  hosts.filter (fun p => !(IsDrained cache p.2) && !(IsDraining cache p.2))

/-- getMaintenance, src/monitor/aurora.go lines 43-53.  The Aurora connection's GetMaintenance returns a response pointer (`none` models nil) and an error.  Both the error branch and the success branch return the dereference of the pointer; a `none` result models the nil-pointer-dereference panic. -/
def getMaintenance (maintenanceResponse : Option MaintenanceResponse)
    (err : Option String) : Option MaintenanceResponse :=
  match err with
  | some _ => maintenanceResponse
  | none => maintenanceResponse

/-- Refresh, src/monitor/aurora.go lines 38-41: replaces the cache `prev` with getMaintenance's result; a `none` result is the propagated panic, so `prev` is not preserved on the error branch. -/
def Refresh (_prev : MaintenanceResponse) (resp : Option MaintenanceResponse)
    (err : Option String) : Option MaintenanceResponse :=
  getMaintenance resp err

end monitor

/-! ## Notebook (src/unnamed/part_001) -/

/-- Lifecycle states of an autoscaling instance as used by the monitor package. -/
inductive LifecycleState where
  | pending
  | inService
  | terminatingWait
  | terminated
  deriving DecidableEq

/-- The fields of an ec2.Instance the notebook reads. -/
structure Ec2Instance where
  instanceId : String
  privateIpAddress : String
  privateDnsName : String
  deriving DecidableEq

/-- The fields of a monitor.InstanceMonitor the notebook reads: identity, owning ASG, lifecycle state, the scale-in instance-protection flag, and the death-mark tag's Unix timestamp. -/
structure InstanceMonitor where
  instanceId : String
  autoscalingGroupId : String
  ip : String
  lifecycleState : LifecycleState
  isProtected : Bool
  tagRemovalTimestamp : Int
  deriving DecidableEq

/-- The configuration keys the notebook consults. -/
structure ApplicationConf where
  deathNodeMark : String
  delayDeleteSeconds : Int
  resetLifecycle : Bool
  lifecycleTimeout : Int
  auroraURL : String
  deriving DecidableEq

/-- The notebook's own mutable state: the timestamp of the last completed termination. -/
structure NotebookState where
  lastDeleteTimestamp : ℚ
  deriving DecidableEq

/-- Outbound calls the notebook makes against the Mesos, AWS and Aurora connections, recorded as trace events; host maps appear as (key, value) pair lists. -/
inductive Event where
  | setHostsInMaintenance (hosts : List (String × String))
  | removeInstanceProtection (asgId : String) (instanceId : String)
  | recordLifecycleActionHeartbeat (instanceId : String)
  | auroraDrainHosts (hosts : List (String × String))
  | auroraEndMaintenance (hosts : List (String × String))
  | completeLifecycleAction (asgId : String) (instanceId : String)
  deriving DecidableEq

/-- Per-tick environment injected into the notebook: the injected clock's reading in seconds, the MesosMonitor.IsProtected snapshot, the autoscaling monitor's instance lookup, and oracles for the outcomes of the fallible external calls. -/
structure Env where
  now : ℚ
  mesosProtected : String → Bool
  instanceById : String → Option InstanceMonitor
  claOk : String → Bool
  drainOk : Bool

/-- Modelled from the spec: the constant monitor.LifeCycleRefreshTimeoutPercentage is declared outside src (only its use in part_001 line 102 is); the spec fixes it as "a fixed constant, e.g. 0.7", and scenario S4 uses heartbeat-percentage 0.7. -/
def LifeCycleRefreshTimeoutPercentage : ℚ := 7 / 10

/-- shouldWaitForNextDestroy, src/unnamed/part_001 lines 73-75: the clock's time since lastDeleteTimestamp, in seconds, is at most DelayDeleteSeconds. -/
def shouldWaitForNextDestroy (conf : ApplicationConf) (env : Env) (s : NotebookState) : Bool :=
  decide (env.now - s.lastDeleteTimestamp ≤ (conf.delayDeleteSeconds : ℚ))

/-- destroyInstance, src/unnamed/part_001 lines 77-96: in TERMINATING_WAIT it calls CompleteLifecycleAction, advances lastDeleteTimestamp to the clock's now on success when DelayDeleteSeconds is nonzero, and (via the deferred endMaintenance of line 80) calls EndMaintenance on the Aurora connection on every return path of that branch.  Returns (trace, new state, errored). -/
def destroyInstance (conf : ApplicationConf) (env : Env) (s : NotebookState)
    (m : InstanceMonitor) : List Event × NotebookState × Bool :=
  if m.lifecycleState = LifecycleState.terminatingWait then
    let evs := [Event.completeLifecycleAction m.autoscalingGroupId m.instanceId,
                Event.auroraEndMaintenance [(m.ip, m.ip)]]
    if env.claOk m.instanceId then
      if conf.delayDeleteSeconds ≠ 0 then
        (evs, { lastDeleteTimestamp := env.now }, false)
      else
        (evs, s, false)
    else
      (evs, s, true)
  else
    ([], s, false)

/-- resetLifecycle, src/unnamed/part_001 lines 98-110: attempts RecordLifecycleActionHeartbeat (via RefreshLifecycleHook) when the instance is TERMINATING_WAIT and the clock's time since the death-mark timestamp exceeds LifecycleTimeout times LifeCycleRefreshTimeoutPercentage; the attempt's own error is only logged. -/
def resetLifecycle (conf : ApplicationConf) (env : Env) (m : InstanceMonitor) : List Event :=
  if m.lifecycleState = LifecycleState.terminatingWait ∧
      (conf.lifecycleTimeout : ℚ) * LifeCycleRefreshTimeoutPercentage <
        env.now - (m.tagRemovalTimestamp : ℚ) then
    [Event.recordLifecycleActionHeartbeat m.instanceId]
  else
    []

/-- removeInstanceProtection, src/unnamed/part_001 lines 179-186: clears scale-in protection when the instance carries it. -/
def removeInstanceProtection (m : InstanceMonitor) : List Event :=
  if m.isProtected then
    [Event.removeInstanceProtection m.autoscalingGroupId m.instanceId]
  else
    []

/-- destroyInstanceAttempt, src/unnamed/part_001 lines 112-150: look the instance up, clear protection (error ignored, line 122), reset the lifecycle hook if configured, stop if the rate limit applies, drain via Aurora when AuroraURL is configured (its error aborts the attempt), and call destroyInstance only when MesosMonitor.IsProtected reports the instance's private IP unprotected. -/
def destroyInstanceAttempt (conf : ApplicationConf) (env : Env) (s : NotebookState)
    (inst : Ec2Instance) : List Event × NotebookState × Bool :=
  match env.instanceById inst.instanceId with
  | none => ([], s, true)
  | some m =>
    let evs1 := removeInstanceProtection m
    let evs2 := if conf.resetLifecycle then resetLifecycle conf env m else []
    if shouldWaitForNextDestroy conf env s then
      (evs1 ++ evs2, s, false)
    else
      let drainEvs := if conf.auroraURL ≠ "" then
          [Event.auroraDrainHosts [(inst.privateDnsName, inst.privateIpAddress)]]
        else []
      if conf.auroraURL ≠ "" ∧ env.drainOk = false then
        (evs1 ++ evs2 ++ drainEvs, s, true)
      else
        if env.mesosProtected inst.privateIpAddress = false then
          let r := destroyInstance conf env s m
          (evs1 ++ evs2 ++ drainEvs ++ r.1, r.2.1, r.2.2)
        else
          (evs1 ++ evs2 ++ drainEvs, s, false)

/-- The per-instance loop of DestroyInstancesAttempt, src/unnamed/part_001 lines 169-173: per-instance errors are logged and do not abort the loop. -/
def destroyInstancesLoop (conf : ApplicationConf) (env : Env) :
    NotebookState → List Ec2Instance → List Event × NotebookState
  | s, [] => ([], s)
  | s, i :: rest =>
    let r := destroyInstanceAttempt conf env s i
    let r2 := destroyInstancesLoop conf env r.2.1 rest
    (r.1 ++ r2.1, r2.2)

/-- DestroyInstancesAttempt, src/unnamed/part_001 lines 156-177: the input list models the instances DescribeInstancesByTag(DeathNodeMark) returns; when it is nonempty the notebook first sets all of them in Mesos maintenance, then runs one attempt per instance. -/
def DestroyInstancesAttempt (conf : ApplicationConf) (env : Env) (s : NotebookState)
    (instances : List Ec2Instance) : List Event × NotebookState :=
  if instances.length > 0 then
    let r := destroyInstancesLoop conf env s instances
    (Event.setHostsInMaintenance
        (instances.map (fun i => (i.privateDnsName, i.privateIpAddress))) :: r.1,
      r.2)
  else
    ([], s)

/-- One tick of a multi-tick run: the injected environment and the death-marked instances the describe call returns for that tick. -/
structure TickInput where
  env : Env
  instances : List Ec2Instance

/-- The clock times at which a CompleteLifecycleAction call in a tick's trace succeeds, per that tick's claOk oracle. -/
def tickSuccessTimes (env : Env) (evs : List Event) : List ℚ :=
  evs.filterMap (fun e =>
    match e with
    | Event.completeLifecycleAction _ i => if env.claOk i then some env.now else none
    | _ => none)

/-- The successful lifecycle-completion times over a multi-tick run of the notebook, in run order. -/
def runSuccessTimes (conf : ApplicationConf) : NotebookState → List TickInput → List ℚ
  | _, [] => []
  | s, t :: rest =>
    let r := DestroyInstancesAttempt conf t.env s t.instances
    tickSuccessTimes t.env r.1 ++ runSuccessTimes conf r.2 rest

/-! ## Watcher (src/unnamed/part_000, RemoveUndesiredInstances) -/

/-- An instance as the watcher's marking loop sees it: identity, death-mark flag, and an oracle for whether a MarkToBeRemoved call on it succeeds. -/
structure WatchedInstance where
  instanceId : String
  ip : String
  marked : Bool
  markOk : Bool
  deriving DecidableEq

/-- A MarkToBeRemoved call attempted by the watcher. -/
inductive MarkEvent where
  | markToBeRemoved (instanceId : String)
  deriving DecidableEq

/-- How RemoveUndesiredInstances ends: the Go function's `return nil`, or the runtime panic from calling a method on the nil victim pointer. -/
inductive WatcherOutcome where
  | returnedNil
  | nilDereference
  deriving DecidableEq

/-- Modelled from the spec: the recommender implementation (firstAvailableInstance) is outside src; per the spec it is "deterministic: the first element by iteration order of the filtered list", and "If the filtered candidate set is empty, the Selector reports no victim". -/
def find (instances : List WatchedInstance) : Option WatchedInstance :=
  instances.head?

/-- MarkToBeRemoved's in-place snapshot update: the chosen instance's death-mark flag is set in the in-memory ASG record. -/
def markInstance (asg : List WatchedInstance) (id : String) : List WatchedInstance :=
  asg.map (fun i => if i.instanceId == id then { i with marked := true } else i)

/-- The marking loop of RemoveUndesiredInstances, src/unnamed/part_000 lines 120-142, with the constraint chosen at construction abstracted as `filterF` and the loop's remaining iteration budget `k` standing for numUndesiredInstances minus removedInstances.  Each iteration filters GetInstancesNotMarkedToBeRemoved, asks the recommender for a victim, and dereferences the victim without a nil check (lines 129-131); `find` reporting no victim therefore yields WatcherOutcome.nilDereference.  A failed MarkToBeRemoved call breaks the loop and the function returns nil. -/
def removeUndesiredLoop (filterF : List WatchedInstance → List WatchedInstance) :
    List WatchedInstance → Nat → List MarkEvent × List WatchedInstance × WatcherOutcome
  | asg, 0 => ([], asg, WatcherOutcome.returnedNil)
  | asg, k + 1 =>
    match find (filterF (asg.filter (fun i => !i.marked))) with
    | none => ([], asg, WatcherOutcome.nilDereference)
    | some best =>
      if best.markOk then
        let r := removeUndesiredLoop filterF (markInstance asg best.instanceId) k
        (MarkEvent.markToBeRemoved best.instanceId :: r.1, r.2)
      else
        ([MarkEvent.markToBeRemoved best.instanceId], asg, WatcherOutcome.returnedNil)

/-- RemoveUndesiredInstances, src/unnamed/part_000 lines 120-142: runs the marking loop numUndesiredInstances times from the current ASG snapshot. -/
def RemoveUndesiredInstances (filterF : List WatchedInstance → List WatchedInstance)
    (asg : List WatchedInstance) (numUndesiredInstances : Nat) :
    List MarkEvent × List WatchedInstance × WatcherOutcome :=
  removeUndesiredLoop filterF asg numUndesiredInstances

/-! ## Theorems for claims C5, C6, C7, C9, C10 -/

/-- C5: for every input host map, the host set AuroraMonitor.DrainHosts forwards to the Aurora client contains exactly those supplied (dns, ip) pairs whose ip is neither DRAINED nor DRAINING in the monitor's current snapshot. -/
theorem c5_drainHosts_forwards_exactly_not_draining_not_drained
    (cache : monitor.MaintenanceResponse) (hosts : List (String × String))
    (p : String × String) :
    p ∈ monitor.DrainHosts cache hosts ↔
      p ∈ hosts ∧ monitor.IsDrained cache p.2 = false ∧
        monitor.IsDraining cache p.2 = false := by
  simp [monitor.DrainHosts, List.mem_filter, Bool.and_eq_true, Bool.not_eq_true',
    and_assoc]

/-- C6: evaluated at the host map {hostname1: 10.0.0.1}, StartMaintenance and DrainHosts POST to their namesake endpoints under the API base path with hostNames equal to the map's values, but EndMaintenance POSTs to the drainHosts endpoint, not to an endMaintenance endpoint: the claim's namesake-endpoint part fails on EndMaintenance (src/aurora/client.go line 571). -/
theorem c6_endMaintenance_posts_to_drainHosts_endpoint :
    (aurora.StartMaintenance "/apibeta" [("hostname1", "10.0.0.1")]).url
        = "/apibeta/startMaintenance" ∧
    (aurora.DrainHosts "/apibeta" [("hostname1", "10.0.0.1")]).url
        = "/apibeta/drainHosts" ∧
    (aurora.EndMaintenance "/apibeta" [("hostname1", "10.0.0.1")]).url
        = "/apibeta/drainHosts" ∧
    ((aurora.EndMaintenance "/apibeta" [("hostname1", "10.0.0.1")]).url
        == "/apibeta/endMaintenance") = false ∧
    (aurora.EndMaintenance "/apibeta" [("hostname1", "10.0.0.1")]).payload
        = { hosts := { hostNames := ["10.0.0.1"] } } := by
  refine ⟨rfl, rfl, rfl, by decide, rfl⟩

/-- C7: for every input host map, the generated Mesos maintenance payload has exactly one window, every window's machinesIds list has one {hostname, ip} entry per input pair, and every window's unavailability start nanoseconds value is nonzero. -/
theorem c7_mesos_payload_one_window
    (hosts : List (String × String)) :
    (mesos.genMaintenanceCallPayload hosts).windows.length = 1 ∧
    ∀ w ∈ (mesos.genMaintenanceCallPayload hosts).windows,
      w.machinesIds.length = hosts.length ∧
        w.unavailability.start.nanoseconds ≠ 0 := by
  refine ⟨rfl, ?_⟩
  intro w hw
  simp only [mesos.genMaintenanceCallPayload, List.mem_singleton] at hw
  subst hw
  simp

/-- C9: getMaintenance returns the dereference of the response pointer on both branches, so with a nil response and an error the result is the nil-pointer dereference (`none`) for every previous cache: the error branch never preserves the previous snapshot. -/
theorem c9_getMaintenance_error_branch_same_deref :
    (∀ resp err, monitor.getMaintenance resp err = resp) ∧
    (∀ prev e, monitor.Refresh prev none (some e) = none) := by
  constructor
  · intro resp err
    cases err <;> rfl
  · intro prev e
    rfl

/-- Helper: when the fetch at the starting offset succeeds, the error component of getMesosTasksRecursive is none, whatever deeper pages do (the recursive call's error is discarded). -/
theorem getMesosTasksRecursive_snd (fetch : Nat → Except String (List String))
    (fuel : Nat) (acc : List String) (offset : Nat) (ts : List String)
    (h : fetch offset = Except.ok ts) :
    (mesos.getMesosTasksRecursive fetch fuel acc offset).2 = none := by
  rw [mesos.getMesosTasksRecursive.eq_def]
  cases fuel <;> simp only [h] <;> split <;> rfl

/-- C10: GetMesosTasks returns an error exactly when fetching the first page (offset 0) fails; when the first page succeeds the result is ok for every fetch behaviour, and when the first page has 100 tasks and the second page's fetch fails, the error is discarded and the tasks accumulated so far are returned with no error. -/
theorem c10_getMesosTasks_error_only_first_page :
    (∀ fetch fuel e, fetch 0 = Except.error e →
        mesos.GetMesosTasks fetch fuel = Except.error e) ∧
    (∀ fetch fuel ts, fetch 0 = Except.ok ts →
        ∃ acc, mesos.GetMesosTasks fetch fuel = Except.ok acc) ∧
    (∀ fetch fuel ts e,
        fetch 0 = Except.ok ts → ts.length = 100 → fetch 100 = Except.error e →
        mesos.GetMesosTasks fetch (fuel + 1) = Except.ok ts) := by
  refine ⟨?_, ?_, ?_⟩
  · intro fetch fuel e h
    cases fuel <;> simp [mesos.GetMesosTasks, mesos.getMesosTasksRecursive, h]
  · intro fetch fuel ts h
    refine ⟨(mesos.getMesosTasksRecursive fetch fuel [] 0).1, ?_⟩
    have h2 := getMesosTasksRecursive_snd fetch fuel [] 0 ts h
    simp [mesos.GetMesosTasks, h2]
  · intro fetch fuel ts e h0 hlen h100
    simp [mesos.GetMesosTasks, mesos.getMesosTasksRecursive, h0, hlen, h100]

/-! ## Helper lemmas about the notebook's per-attempt traces -/

/-- Helper: removeInstanceProtection emits either nothing or its single protection-removal event. -/
theorem removeInstanceProtection_eq (m : InstanceMonitor) :
    removeInstanceProtection m = [] ∨
    removeInstanceProtection m =
      [Event.removeInstanceProtection m.autoscalingGroupId m.instanceId] := by
  unfold removeInstanceProtection
  split
  · exact Or.inr rfl
  · exact Or.inl rfl

/-- Helper: resetLifecycle emits its heartbeat attempt exactly under its guard. -/
theorem resetLifecycle_eq (conf : ApplicationConf) (env : Env) (m : InstanceMonitor) :
    resetLifecycle conf env m = [] ∨
    (resetLifecycle conf env m = [Event.recordLifecycleActionHeartbeat m.instanceId] ∧
      m.lifecycleState = LifecycleState.terminatingWait ∧
      (conf.lifecycleTimeout : ℚ) * LifeCycleRefreshTimeoutPercentage <
        env.now - (m.tagRemovalTimestamp : ℚ)) := by
  unfold resetLifecycle
  split
  · next h => exact Or.inr ⟨rfl, h.1, h.2⟩
  · exact Or.inl rfl

/-- Helper: the lifecycle-reset block of destroyInstanceAttempt emits the heartbeat exactly when ResetLifecycle is configured and resetLifecycle's guard holds. -/
theorem resetLifecycleIf_eq (conf : ApplicationConf) (env : Env) (m : InstanceMonitor) :
    (if conf.resetLifecycle then resetLifecycle conf env m else []) = [] ∨
    ((if conf.resetLifecycle then resetLifecycle conf env m else [])
        = [Event.recordLifecycleActionHeartbeat m.instanceId] ∧
      conf.resetLifecycle = true ∧
      m.lifecycleState = LifecycleState.terminatingWait ∧
      (conf.lifecycleTimeout : ℚ) * LifeCycleRefreshTimeoutPercentage <
        env.now - (m.tagRemovalTimestamp : ℚ)) := by
  by_cases h : conf.resetLifecycle = true
  · rcases resetLifecycle_eq conf env m with h2 | ⟨h2, h3, h4⟩
    · exact Or.inl (by simp [h, h2])
    · exact Or.inr ⟨by simp [h, h2], h, h3, h4⟩
  · exact Or.inl (by simp [h])

/-- Helper: destroyInstance's trace is empty outside TERMINATING_WAIT and otherwise consists of the CompleteLifecycleAction call followed by the deferred Aurora EndMaintenance call. -/
theorem destroyInstance_trace_eq (conf : ApplicationConf) (env : Env) (s : NotebookState)
    (m : InstanceMonitor) :
    (destroyInstance conf env s m).1 = [] ∨
    ((destroyInstance conf env s m).1 =
        [Event.completeLifecycleAction m.autoscalingGroupId m.instanceId,
         Event.auroraEndMaintenance [(m.ip, m.ip)]] ∧
      m.lifecycleState = LifecycleState.terminatingWait) := by
  unfold destroyInstance
  split_ifs with h1 h2 h3
  · exact Or.inr ⟨rfl, h1⟩
  · exact Or.inr ⟨rfl, h1⟩
  · exact Or.inr ⟨rfl, h1⟩
  · exact Or.inl rfl

/-- Helper: every CompleteLifecycleAction event in a destroyInstanceAttempt trace is issued with the looked-up monitor's instance id, and only when MesosMonitor.IsProtected reported the attempt's private IP unprotected. -/
theorem attempt_cla_id (conf : ApplicationConf) (env : Env) (s : NotebookState)
    (inst : Ec2Instance) (a i : String)
    (he : Event.completeLifecycleAction a i ∈ (destroyInstanceAttempt conf env s inst).1) :
    ∃ m, env.instanceById inst.instanceId = some m ∧ i = m.instanceId ∧
      env.mesosProtected inst.privateIpAddress = false := by
  cases hLook : env.instanceById inst.instanceId with
  | none =>
    simp only [destroyInstanceAttempt, hLook] at he
    simp at he
  | some m =>
    simp only [destroyInstanceAttempt, hLook] at he
    refine ⟨m, rfl, ?_⟩
    rcases removeInstanceProtection_eq m with h1 | h1 <;>
      rcases resetLifecycleIf_eq conf env m with h2 | ⟨h2, _, _, _⟩ <;>
        rcases destroyInstance_trace_eq conf env s m with h3 | ⟨h3, _⟩ <;>
          by_cases hw : shouldWaitForNextDestroy conf env s = true <;>
            by_cases hurl : conf.auroraURL = "" <;>
              by_cases hdo : env.drainOk = true <;>
                by_cases hmp : env.mesosProtected inst.privateIpAddress = false <;>
                  simp_all

/-- Helper: the same, lifted over the per-instance loop of a pass. -/
theorem loop_cla (conf : ApplicationConf) (env : Env) :
    ∀ (instances : List Ec2Instance) (s : NotebookState) (a i : String),
      Event.completeLifecycleAction a i ∈ (destroyInstancesLoop conf env s instances).1 →
      ∃ inst2, inst2 ∈ instances ∧
        ∃ m, env.instanceById inst2.instanceId = some m ∧ i = m.instanceId ∧
          env.mesosProtected inst2.privateIpAddress = false
  | [], s, a, i, h => by simp [destroyInstancesLoop] at h
  | inst2 :: rest, s, a, i, h => by
    simp only [destroyInstancesLoop, List.mem_append] at h
    rcases h with h | h
    · obtain ⟨m, hm, hi, hp⟩ := attempt_cla_id conf env s inst2 a i h
      exact ⟨inst2, by simp, m, hm, hi, hp⟩
    · obtain ⟨inst3, h3, hrest⟩ := loop_cla conf env rest _ a i h
      exact ⟨inst3, by simp [h3], hrest⟩

/-- C1: during a Notebook pass, for every death-marked instance whose private IP MesosMonitor.IsProtected reports protected, no CompleteLifecycleAction call is issued for that instance in that tick.  The pass's instances carry distinct ids and the autoscaling lookup is well-formed (GetInstanceByID returns the monitor of the queried id). -/
theorem c1_no_complete_lifecycle_for_protected (conf : ApplicationConf) (env : Env)
    (s : NotebookState) (instances : List Ec2Instance) (inst : Ec2Instance)
    (hmem : inst ∈ instances)
    (hprot : env.mesosProtected inst.privateIpAddress = true)
    (hwf : ∀ id m, env.instanceById id = some m → m.instanceId = id)
    (hnodup : (instances.map (fun i => i.instanceId)).Nodup)
    (a : String) :
    Event.completeLifecycleAction a inst.instanceId ∉
      (DestroyInstancesAttempt conf env s instances).1 := by
  intro he
  have hlen : instances.length > 0 := List.length_pos.mpr (List.ne_nil_of_mem hmem)
  simp only [DestroyInstancesAttempt, if_pos hlen, List.mem_cons] at he
  rcases he with he | he
  · exact Event.noConfusion he
  · obtain ⟨inst2, hmem2, m, hm, hi, hp⟩ := loop_cla conf env instances s a inst.instanceId he
    have hid : m.instanceId = inst2.instanceId := hwf inst2.instanceId m hm
    have heq : inst.instanceId = inst2.instanceId := by rw [hi, hid]
    have : inst = inst2 :=
      List.inj_on_of_nodup_map hnodup hmem hmem2 heq
    rw [← this, hprot] at hp
    exact Bool.noConfusion hp

/-- Concrete instance monitor fixture used by witnesses. -/
def mW : InstanceMonitor :=
  { instanceId := "i-1", autoscalingGroupId := "asg", ip := "10.0.0.1",
    lifecycleState := LifecycleState.terminatingWait, isProtected := false,
    tagRemovalTimestamp := 0 }

/-- Concrete ec2 instance fixture used by witnesses. -/
def iW : Ec2Instance :=
  { instanceId := "i-1", privateIpAddress := "10.0.0.1", privateDnsName := "host1" }

/-- Concrete initial notebook state fixture. -/
def sW : NotebookState := { lastDeleteTimestamp := 0 }

/-- Concrete configuration fixture for the C1 witness. -/
def confC1 : ApplicationConf :=
  { deathNodeMark := "DEATH_NODE_MARK", delayDeleteSeconds := 0, resetLifecycle := false,
    lifecycleTimeout := 0, auroraURL := "" }

/-- Concrete environment fixture for the C1 witness: the instance's IP is Mesos-protected. -/
def envC1 : Env :=
  { now := 5, mesosProtected := fun _ => true,
    instanceById := fun id => if id = "i-1" then some mW else none,
    claOk := fun _ => true, drainOk := true }

/-- Witness for C1: at the concrete protected instance, no CompleteLifecycleAction event appears in the pass's trace. -/
theorem c1_witness :
    Event.completeLifecycleAction "asg" "i-1" ∉
      (DestroyInstancesAttempt confC1 envC1 sW [iW]).1 := by
  have h := c1_no_complete_lifecycle_for_protected confC1 envC1 sW [iW] iW
    (by simp) rfl
    (by
      intro id m hm
      by_cases hid : id = "i-1"
      · subst hid
        simp only [envC1, if_pos rfl] at hm
        cases hm
        rfl
      · simp [envC1, hid] at hm)
    (by simp) "asg"
  exact h

/-! ## Rate-limit invariant (claim C2) -/

/-- Helper: tickSuccessTimes distributes over trace concatenation. -/
theorem tickSuccessTimes_append (env : Env) (l1 l2 : List Event) :
    tickSuccessTimes env (l1 ++ l2) = tickSuccessTimes env l1 ++ tickSuccessTimes env l2 := by
  simp [tickSuccessTimes]

/-- Helper: protection-removal events contribute no success time. -/
theorem tickSuccessTimes_removeProt (env : Env) (m : InstanceMonitor) :
    tickSuccessTimes env (removeInstanceProtection m) = [] := by
  rcases removeInstanceProtection_eq m with h | h <;> simp [h, tickSuccessTimes]

/-- Helper: heartbeat events contribute no success time. -/
theorem tickSuccessTimes_resetIf (conf : ApplicationConf) (env : Env) (m : InstanceMonitor) :
    tickSuccessTimes env (if conf.resetLifecycle then resetLifecycle conf env m else []) = [] := by
  rcases resetLifecycleIf_eq conf env m with h | ⟨h, _, _, _⟩ <;> simp [h, tickSuccessTimes]

/-- Helper: destroyInstance either completes no termination and keeps the state, or completes one at the clock's now and advances lastDeleteTimestamp to now (DelayDeleteSeconds being positive). -/
theorem destroyInstance_success (conf : ApplicationConf) (env : Env) (s : NotebookState)
    (m : InstanceMonitor) (hD : 0 < conf.delayDeleteSeconds) :
    (tickSuccessTimes env (destroyInstance conf env s m).1 = [] ∧
      (destroyInstance conf env s m).2.1 = s) ∨
    (tickSuccessTimes env (destroyInstance conf env s m).1 = [env.now] ∧
      (destroyInstance conf env s m).2.1 = { lastDeleteTimestamp := env.now }) := by
  unfold destroyInstance
  split_ifs with h1 h2 h3
  · exact Or.inr ⟨by simp [tickSuccessTimes, h2], rfl⟩
  · exact absurd (by omega : conf.delayDeleteSeconds ≠ 0) h3
  · refine Or.inl ⟨?_, rfl⟩
    simp only [Bool.not_eq_true] at h2
    simp [tickSuccessTimes, h2]
  · exact Or.inl ⟨by simp [tickSuccessTimes], rfl⟩

/-- Helper: a possibly-skipped drain event contributes no success time. -/
theorem tickSuccessTimes_drainIf (env : Env) (c : Prop) [Decidable c]
    (hosts : List (String × String)) :
    tickSuccessTimes env (if c then [Event.auroraDrainHosts hosts] else []) = [] := by
  split <;> simp [tickSuccessTimes]

/-- Helper: the flipped form of the previous lemma, as simp normalises the negated condition. -/
theorem tickSuccessTimes_drainIfFlip (env : Env) (c : Prop) [Decidable c]
    (hosts : List (String × String)) :
    tickSuccessTimes env (if c then [] else [Event.auroraDrainHosts hosts]) = [] := by
  split <;> simp [tickSuccessTimes]

/-- Helper: a lone drain event contributes no success time. -/
theorem tickSuccessTimes_drainOne (env : Env) (hosts : List (String × String)) :
    tickSuccessTimes env [Event.auroraDrainHosts hosts] = [] := by
  simp [tickSuccessTimes]

/-- Helper: one destroyInstanceAttempt either completes no termination and keeps lastDeleteTimestamp, or completes exactly one at the clock's now, which then strictly exceeds lastDeleteTimestamp plus DelayDeleteSeconds, and lastDeleteTimestamp advances to now. -/
theorem attempt_success (conf : ApplicationConf) (env : Env) (s : NotebookState)
    (inst : Ec2Instance) (hD : 0 < conf.delayDeleteSeconds) :
    (tickSuccessTimes env (destroyInstanceAttempt conf env s inst).1 = [] ∧
      (destroyInstanceAttempt conf env s inst).2.1 = s) ∨
    (tickSuccessTimes env (destroyInstanceAttempt conf env s inst).1 = [env.now] ∧
      s.lastDeleteTimestamp + (conf.delayDeleteSeconds : ℚ) < env.now ∧
      (destroyInstanceAttempt conf env s inst).2.1 = { lastDeleteTimestamp := env.now }) := by
  cases hLook : env.instanceById inst.instanceId with
  | none => exact Or.inl ⟨by simp [destroyInstanceAttempt, hLook, tickSuccessTimes], by
      simp [destroyInstanceAttempt, hLook]⟩
  | some m =>
    cases hw : shouldWaitForNextDestroy conf env s with
    | true =>
      refine Or.inl ⟨?_, ?_⟩ <;>
        simp [destroyInstanceAttempt, hLook, hw, tickSuccessTimes_append,
          tickSuccessTimes_removeProt, tickSuccessTimes_resetIf]
    | false =>
      have hgap : s.lastDeleteTimestamp + (conf.delayDeleteSeconds : ℚ) < env.now := by
        simp only [shouldWaitForNextDestroy, decide_eq_false_iff_not] at hw
        have := lt_of_not_le hw
        linarith
      by_cases hdrain : conf.auroraURL ≠ "" ∧ env.drainOk = false
      · refine Or.inl ⟨?_, ?_⟩ <;>
          simp [destroyInstanceAttempt, hLook, hw, hdrain, tickSuccessTimes_append,
            tickSuccessTimes_removeProt, tickSuccessTimes_resetIf, tickSuccessTimes_drainIf,
            tickSuccessTimes_drainIfFlip, tickSuccessTimes_drainOne]
      · by_cases hmp : env.mesosProtected inst.privateIpAddress = false
        · rcases destroyInstance_success conf env s m hD with ⟨h1, h2⟩ | ⟨h1, h2⟩
          · refine Or.inl ⟨?_, ?_⟩ <;>
              simp [destroyInstanceAttempt, hLook, hw, hdrain, hmp,
                tickSuccessTimes_append, tickSuccessTimes_removeProt,
                tickSuccessTimes_resetIf, tickSuccessTimes_drainIf,
                tickSuccessTimes_drainIfFlip, tickSuccessTimes_drainOne, h1, h2]
          · refine Or.inr ⟨?_, hgap, ?_⟩ <;>
              simp [destroyInstanceAttempt, hLook, hw, hdrain, hmp,
                tickSuccessTimes_append, tickSuccessTimes_removeProt,
                tickSuccessTimes_resetIf, tickSuccessTimes_drainIf,
                tickSuccessTimes_drainIfFlip, tickSuccessTimes_drainOne, h1, h2]
        · refine Or.inl ⟨?_, ?_⟩ <;>
            simp [destroyInstanceAttempt, hLook, hw, hdrain, hmp,
              tickSuccessTimes_append, tickSuccessTimes_removeProt,
              tickSuccessTimes_resetIf, tickSuccessTimes_drainIf,
            tickSuccessTimes_drainIfFlip, tickSuccessTimes_drainOne]

/-- Helper: over the per-instance loop of one pass, lastDeleteTimestamp is monotone, every completion time lies strictly above the starting lastDeleteTimestamp plus the delay and at most at the final lastDeleteTimestamp, and consecutive completion times are more than the delay apart. -/
theorem loop_success (conf : ApplicationConf) (env : Env)
    (hD : 0 < conf.delayDeleteSeconds) :
    ∀ (instances : List Ec2Instance) (s : NotebookState),
      s.lastDeleteTimestamp ≤ (destroyInstancesLoop conf env s instances).2.lastDeleteTimestamp ∧
      (∀ t ∈ tickSuccessTimes env (destroyInstancesLoop conf env s instances).1,
        s.lastDeleteTimestamp + (conf.delayDeleteSeconds : ℚ) < t ∧
        t ≤ (destroyInstancesLoop conf env s instances).2.lastDeleteTimestamp) ∧
      (tickSuccessTimes env (destroyInstancesLoop conf env s instances).1).Pairwise
        (fun t1 t2 => t1 + (conf.delayDeleteSeconds : ℚ) < t2)
  | [], s => by simp [destroyInstancesLoop, tickSuccessTimes]
  | inst :: rest, s => by
    have hDq : (0 : ℚ) < (conf.delayDeleteSeconds : ℚ) := by exact_mod_cast hD
    have hloop : destroyInstancesLoop conf env s (inst :: rest) =
        ((destroyInstanceAttempt conf env s inst).1 ++
          (destroyInstancesLoop conf env (destroyInstanceAttempt conf env s inst).2.1 rest).1,
         (destroyInstancesLoop conf env (destroyInstanceAttempt conf env s inst).2.1 rest).2) :=
      rfl
    rcases attempt_success conf env s inst hD with ⟨h1, h2⟩ | ⟨h1, hgap, h2⟩
    · have ih := loop_success conf env hD rest (destroyInstanceAttempt conf env s inst).2.1
      rw [hloop]
      simp only [tickSuccessTimes_append, h1, h2, List.nil_append]
      rw [h2] at ih
      exact ih
    · have ih := loop_success conf env hD rest (destroyInstanceAttempt conf env s inst).2.1
      rw [h2] at ih
      obtain ⟨ihmono, ihbound, ihpair⟩ := ih
      rw [hloop]
      simp only [tickSuccessTimes_append, h1, h2, List.singleton_append]
      refine ⟨?_, ?_, ?_⟩
      · calc s.lastDeleteTimestamp
            ≤ s.lastDeleteTimestamp + (conf.delayDeleteSeconds : ℚ) := by linarith
          _ ≤ _ := by
              have : ({ lastDeleteTimestamp := env.now } : NotebookState).lastDeleteTimestamp
                  = env.now := rfl
              rw [this] at ihmono
              linarith
      · intro t ht
        rcases List.mem_cons.mp ht with h | h
        · subst h
          refine ⟨hgap, ?_⟩
          have : ({ lastDeleteTimestamp := env.now } : NotebookState).lastDeleteTimestamp
              = env.now := rfl
          rw [this] at ihmono
          exact ihmono
        · obtain ⟨hb1, hb2⟩ := ihbound t h
          have : ({ lastDeleteTimestamp := env.now } : NotebookState).lastDeleteTimestamp
              = env.now := rfl
          rw [this] at hb1
          exact ⟨by linarith, hb2⟩
      · refine List.pairwise_cons.mpr ⟨?_, ihpair⟩
        intro t ht
        obtain ⟨hb1, _⟩ := ihbound t ht
        have : ({ lastDeleteTimestamp := env.now } : NotebookState).lastDeleteTimestamp
            = env.now := rfl
        rw [this] at hb1
        exact hb1

/-- Helper: the loop invariant lifted to a full DestroyInstancesAttempt pass (the leading SetMesosAgentsInMaintenance event contributes no success time). -/
theorem pass_success (conf : ApplicationConf) (env : Env)
    (hD : 0 < conf.delayDeleteSeconds) (instances : List Ec2Instance) (s : NotebookState) :
    s.lastDeleteTimestamp ≤
        (DestroyInstancesAttempt conf env s instances).2.lastDeleteTimestamp ∧
    (∀ t ∈ tickSuccessTimes env (DestroyInstancesAttempt conf env s instances).1,
      s.lastDeleteTimestamp + (conf.delayDeleteSeconds : ℚ) < t ∧
      t ≤ (DestroyInstancesAttempt conf env s instances).2.lastDeleteTimestamp) ∧
    (tickSuccessTimes env (DestroyInstancesAttempt conf env s instances).1).Pairwise
      (fun t1 t2 => t1 + (conf.delayDeleteSeconds : ℚ) < t2) := by
  unfold DestroyInstancesAttempt
  by_cases hlen : instances.length > 0
  · simp only [if_pos hlen]
    have h := loop_success conf env hD instances s
    have hcons : tickSuccessTimes env
        (Event.setHostsInMaintenance
            (instances.map (fun i => (i.privateDnsName, i.privateIpAddress))) ::
          (destroyInstancesLoop conf env s instances).1) =
        tickSuccessTimes env (destroyInstancesLoop conf env s instances).1 := by
      simp [tickSuccessTimes]
    rw [hcons]
    exact h
  · simp only [if_neg hlen]
    simp [tickSuccessTimes]

/-- Helper: over a multi-tick run, every success time lies strictly above the starting lastDeleteTimestamp plus the delay, and any two successive success times are more than the delay apart. -/
theorem run_success (conf : ApplicationConf) (hD : 0 < conf.delayDeleteSeconds) :
    ∀ (ticks : List TickInput) (s : NotebookState),
      (∀ t ∈ runSuccessTimes conf s ticks,
        s.lastDeleteTimestamp + (conf.delayDeleteSeconds : ℚ) < t) ∧
      (runSuccessTimes conf s ticks).Pairwise
        (fun t1 t2 => t1 + (conf.delayDeleteSeconds : ℚ) < t2)
  | [], s => by simp [runSuccessTimes]
  | tk :: rest, s => by
    have hDq : (0 : ℚ) < (conf.delayDeleteSeconds : ℚ) := by exact_mod_cast hD
    obtain ⟨hmono, hbound, hpair⟩ := pass_success conf tk.env hD tk.instances s
    have ih := run_success conf hD rest (DestroyInstancesAttempt conf tk.env s tk.instances).2
    obtain ⟨ihbound, ihpair⟩ := ih
    have hrun : runSuccessTimes conf s (tk :: rest) =
        tickSuccessTimes tk.env (DestroyInstancesAttempt conf tk.env s tk.instances).1 ++
          runSuccessTimes conf (DestroyInstancesAttempt conf tk.env s tk.instances).2 rest :=
      rfl
    rw [hrun]
    constructor
    · intro t ht
      rcases List.mem_append.mp ht with h | h
      · exact (hbound t h).1
      · have := ihbound t h
        linarith [hmono]
    · refine List.pairwise_append.mpr ⟨hpair, ihpair, ?_⟩
      intro t1 h1 t2 h2
      have hb1 := (hbound t1 h1).2
      have hb2 := ihbound t2 h2
      linarith

/-- C2: with DelayDeleteSeconds positive, any two successful CompleteLifecycleAction calls of a notebook run at times t1 < t2 are more than DelayDeleteSeconds apart. -/
theorem c2_rate_limit (conf : ApplicationConf) (s : NotebookState) (ticks : List TickInput)
    (t1 t2 : ℚ) (hD : 0 < conf.delayDeleteSeconds)
    (h1 : t1 ∈ runSuccessTimes conf s ticks) (h2 : t2 ∈ runSuccessTimes conf s ticks)
    (hlt : t1 < t2) :
    (conf.delayDeleteSeconds : ℚ) < t2 - t1 := by
  have hDq : (0 : ℚ) < (conf.delayDeleteSeconds : ℚ) := by exact_mod_cast hD
  have hpair := (run_success conf hD ticks s).2
  have hsym : (runSuccessTimes conf s ticks).Pairwise
      (fun a b => a + (conf.delayDeleteSeconds : ℚ) < b ∨
        b + (conf.delayDeleteSeconds : ℚ) < a) :=
    hpair.imp (fun h => Or.inl h)
  have hforall := hsym.forall (fun a b h => h.symm) h1 h2 (ne_of_lt hlt)
  rcases hforall with h | h
  · linarith
  · linarith

/-- Concrete configuration fixture for the C2 witness: DelayDeleteSeconds is 60. -/
def confC2 : ApplicationConf :=
  { deathNodeMark := "DEATH_NODE_MARK", delayDeleteSeconds := 60, resetLifecycle := false,
    lifecycleTimeout := 0, auroraURL := "" }

/-- Concrete environment fixture for the C2 witness, parameterised by the tick's clock. -/
def envC2 (t : ℚ) : Env :=
  { now := t, mesosProtected := fun _ => false, instanceById := fun _ => some mW,
    claOk := fun _ => true, drainOk := true }

/-- Concrete two-tick run for the C2 witness: completions succeed at times 100 and 200. -/
def ticksC2 : List TickInput :=
  [{ env := envC2 100, instances := [iW] }, { env := envC2 200, instances := [iW] }]

/-- Witness for C2: in the concrete two-tick run the successes at 100 and 200 are more than 60 seconds apart. -/
theorem c2_witness :
    (100 : ℚ) ∈ runSuccessTimes confC2 sW ticksC2 ∧
    (200 : ℚ) ∈ runSuccessTimes confC2 sW ticksC2 ∧
    ((confC2.delayDeleteSeconds : ℚ)) < 200 - 100 := by
  have hrun : runSuccessTimes confC2 sW ticksC2 = [100, 200] := by
    norm_num [runSuccessTimes, DestroyInstancesAttempt, destroyInstancesLoop,
      destroyInstanceAttempt, destroyInstance, shouldWaitForNextDestroy,
      removeInstanceProtection, resetLifecycle, tickSuccessTimes,
      ticksC2, envC2, confC2, mW, iW, sW]
    rfl
  refine ⟨by simp [hrun], by simp [hrun], ?_⟩
  exact c2_rate_limit confC2 sW ticksC2 100 200 (by norm_num [confC2])
    (by simp [hrun]) (by simp [hrun]) (by norm_num)

/-! ## Claims C3 and C4: the per-attempt trace in detail -/

/-- Helper: with Aurora unconfigured, the looked-up instance unprotected in Mesos and in TERMINATING_WAIT, and the rate limit not in force, the attempt's trace is the protection-removal events, then the lifecycle-reset events, then the CompleteLifecycleAction call and the deferred Aurora EndMaintenance call. -/
theorem attempt_trace_no_aurora (conf : ApplicationConf) (env : Env) (s : NotebookState)
    (inst : Ec2Instance) (m : InstanceMonitor)
    (hurl : conf.auroraURL = "")
    (hLook : env.instanceById inst.instanceId = some m)
    (hmp : env.mesosProtected inst.privateIpAddress = false)
    (hstate : m.lifecycleState = LifecycleState.terminatingWait)
    (hw : shouldWaitForNextDestroy conf env s = false) :
    (destroyInstanceAttempt conf env s inst).1 =
      removeInstanceProtection m ++
      (if conf.resetLifecycle then resetLifecycle conf env m else []) ++
      [Event.completeLifecycleAction m.autoscalingGroupId m.instanceId,
       Event.auroraEndMaintenance [(m.ip, m.ip)]] := by
  have htail : (destroyInstance conf env s m).1 =
      [Event.completeLifecycleAction m.autoscalingGroupId m.instanceId,
       Event.auroraEndMaintenance [(m.ip, m.ip)]] := by
    unfold destroyInstance
    rw [if_pos hstate]
    split_ifs <;> rfl
  simp [destroyInstanceAttempt, hLook, hw, hurl, hmp, htail]

/-- Concrete configuration fixture for C3: Aurora is not configured. -/
def confC3 : ApplicationConf :=
  { deathNodeMark := "DEATH_NODE_MARK", delayDeleteSeconds := 0, resetLifecycle := false,
    lifecycleTimeout := 0, auroraURL := "" }

/-- Concrete environment fixture for C3: the instance is not Mesos-protected and the clock stands at 5 seconds. -/
def envC3 : Env :=
  { now := 5, mesosProtected := fun _ => false, instanceById := fun _ => some mW,
    claOk := fun _ => true, drainOk := true }

/-- C3 counterexample: at the concrete scenario input (AuroraURL empty, marked instance not Mesos-protected and in TERMINATING_WAIT), the pass does call CompleteLifecycleAction but it also issues an EndMaintenance call on the Aurora connection, so the claim's "no Aurora client call at all" is false on the code. -/
theorem c3_counterexample :
    confC3.auroraURL = "" ∧
    envC3.instanceById iW.instanceId = some mW ∧
    envC3.mesosProtected iW.privateIpAddress = false ∧
    mW.lifecycleState = LifecycleState.terminatingWait ∧
    Event.completeLifecycleAction "asg" "i-1" ∈
      (DestroyInstancesAttempt confC3 envC3 sW [iW]).1 ∧
    Event.auroraEndMaintenance [("10.0.0.1", "10.0.0.1")] ∈
      (DestroyInstancesAttempt confC3 envC3 sW [iW]).1 := by
  have htr : (DestroyInstancesAttempt confC3 envC3 sW [iW]).1 =
      [Event.setHostsInMaintenance [("host1", "10.0.0.1")],
       Event.completeLifecycleAction "asg" "i-1",
       Event.auroraEndMaintenance [("10.0.0.1", "10.0.0.1")]] := by
    norm_num [DestroyInstancesAttempt, destroyInstancesLoop, destroyInstanceAttempt,
      destroyInstance, shouldWaitForNextDestroy, removeInstanceProtection,
      resetLifecycle, confC3, envC3, mW, iW, sW]
  exact ⟨rfl, rfl, rfl, rfl, by simp [htr], by simp [htr]⟩

/-- C3 (amended): with AuroraURL empty, a Notebook pass over a death-marked, non-Mesos-protected instance in TERMINATING_WAIT calls CompleteLifecycleAction and performs no Aurora DrainHosts call, but it does issue an EndMaintenance call on the Aurora connection, via destroyInstance's unconditional deferred cleanup. -/
theorem c3_amended_no_drain_but_end_maintenance (conf : ApplicationConf) (env : Env)
    (s : NotebookState) (inst : Ec2Instance) (m : InstanceMonitor)
    (hurl : conf.auroraURL = "")
    (hLook : env.instanceById inst.instanceId = some m)
    (hmp : env.mesosProtected inst.privateIpAddress = false)
    (hstate : m.lifecycleState = LifecycleState.terminatingWait)
    (hw : shouldWaitForNextDestroy conf env s = false) :
    Event.completeLifecycleAction m.autoscalingGroupId m.instanceId ∈
      (DestroyInstancesAttempt conf env s [inst]).1 ∧
    (∀ hosts, Event.auroraDrainHosts hosts ∉ (DestroyInstancesAttempt conf env s [inst]).1) ∧
    Event.auroraEndMaintenance [(m.ip, m.ip)] ∈ (DestroyInstancesAttempt conf env s [inst]).1 := by
  have hpass : (DestroyInstancesAttempt conf env s [inst]).1 =
      Event.setHostsInMaintenance [(inst.privateDnsName, inst.privateIpAddress)] ::
        (destroyInstanceAttempt conf env s inst).1 := by
    simp [DestroyInstancesAttempt, destroyInstancesLoop]
  rw [hpass, attempt_trace_no_aurora conf env s inst m hurl hLook hmp hstate hw]
  refine ⟨by simp, ?_, by simp⟩
  intro hosts
  rcases removeInstanceProtection_eq m with h1 | h1 <;>
    rcases resetLifecycleIf_eq conf env m with h2 | ⟨h2, _, _, _⟩ <;>
      simp [h1, h2]

/-- Witness for C3's amended claim at the concrete scenario input. -/
theorem c3_witness :
    Event.completeLifecycleAction mW.autoscalingGroupId mW.instanceId ∈
      (DestroyInstancesAttempt confC3 envC3 sW [iW]).1 ∧
    (∀ hosts, Event.auroraDrainHosts hosts ∉ (DestroyInstancesAttempt confC3 envC3 sW [iW]).1) ∧
    Event.auroraEndMaintenance [(mW.ip, mW.ip)] ∈
      (DestroyInstancesAttempt confC3 envC3 sW [iW]).1 :=
  c3_amended_no_drain_but_end_maintenance confC3 envC3 sW iW mW rfl rfl rfl rfl
    (by norm_num [shouldWaitForNextDestroy, confC3, envC3, sW])

/-- Helper: given a successful lookup, the attempt's trace always starts with the protection-removal events followed by the lifecycle-reset events, and no later event is a heartbeat. -/
theorem attempt_trace_decomp (conf : ApplicationConf) (env : Env) (s : NotebookState)
    (inst : Ec2Instance) (m : InstanceMonitor)
    (hLook : env.instanceById inst.instanceId = some m) :
    ∃ t, (destroyInstanceAttempt conf env s inst).1 =
        removeInstanceProtection m ++
          (if conf.resetLifecycle then resetLifecycle conf env m else []) ++ t ∧
      ∀ i2, Event.recordLifecycleActionHeartbeat i2 ∉ t := by
  cases hw : shouldWaitForNextDestroy conf env s with
  | true =>
    refine ⟨[], by simp [destroyInstanceAttempt, hLook, hw], by simp⟩
  | false =>
    by_cases hurl : conf.auroraURL = ""
    · by_cases hmp : env.mesosProtected inst.privateIpAddress = false
      · refine ⟨(destroyInstance conf env s m).1,
          by simp [destroyInstanceAttempt, hLook, hw, hurl, hmp], ?_⟩
        intro i2
        rcases destroyInstance_trace_eq conf env s m with h3 | ⟨h3, _⟩ <;> simp [h3]
      · refine ⟨[], by simp [destroyInstanceAttempt, hLook, hw, hurl, hmp], by simp⟩
    · by_cases hdo : env.drainOk = true
      · by_cases hmp : env.mesosProtected inst.privateIpAddress = false
        · refine ⟨[Event.auroraDrainHosts [(inst.privateDnsName, inst.privateIpAddress)]] ++
              (destroyInstance conf env s m).1,
            by simp [destroyInstanceAttempt, hLook, hw, hurl, hmp, hdo], ?_⟩
          intro i2
          rcases destroyInstance_trace_eq conf env s m with h3 | ⟨h3, _⟩ <;> simp [h3]
        · refine ⟨[Event.auroraDrainHosts [(inst.privateDnsName, inst.privateIpAddress)]],
            by simp [destroyInstanceAttempt, hLook, hw, hurl, hmp, hdo], by simp⟩
      · refine ⟨[Event.auroraDrainHosts [(inst.privateDnsName, inst.privateIpAddress)]],
          ?_, by simp⟩
        have hdrain : conf.auroraURL ≠ "" ∧ env.drainOk = false := by
          simp only [Bool.not_eq_true] at hdo
          exact ⟨hurl, hdo⟩
        simp [destroyInstanceAttempt, hLook, hw, hurl, hdrain]

/-- C4: given the instance lookup succeeds, a RecordLifecycleActionHeartbeat attempt (via RefreshLifecycleHook) appears in destroyInstanceAttempt's trace exactly when ResetLifecycle is configured, the instance is in TERMINATING_WAIT, and the clock's time since the death-mark timestamp strictly exceeds LifecycleTimeout times LifeCycleRefreshTimeoutPercentage. -/
theorem c4_heartbeat_iff (conf : ApplicationConf) (env : Env) (s : NotebookState)
    (inst : Ec2Instance) (m : InstanceMonitor)
    (hLook : env.instanceById inst.instanceId = some m) :
    (Event.recordLifecycleActionHeartbeat m.instanceId ∈
        (destroyInstanceAttempt conf env s inst).1) ↔
      (conf.resetLifecycle = true ∧
       m.lifecycleState = LifecycleState.terminatingWait ∧
       (conf.lifecycleTimeout : ℚ) * LifeCycleRefreshTimeoutPercentage <
         env.now - (m.tagRemovalTimestamp : ℚ)) := by
  obtain ⟨t, htr, hnot⟩ := attempt_trace_decomp conf env s inst m hLook
  rw [htr]
  simp only [List.mem_append]
  constructor
  · rintro ((h | h) | h)
    · exfalso
      rcases removeInstanceProtection_eq m with h1 | h1 <;> simp [h1] at h
    · rcases resetLifecycleIf_eq conf env m with h2 | ⟨h2, hrl, hst, htime⟩
      · exfalso
        simp [h2] at h
      · exact ⟨hrl, hst, htime⟩
    · exact absurd h (hnot m.instanceId)
  · rintro ⟨hrl, hst, htime⟩
    left
    right
    have h2 : (if conf.resetLifecycle then resetLifecycle conf env m else []) =
        [Event.recordLifecycleActionHeartbeat m.instanceId] := by
      rw [if_pos hrl]
      unfold resetLifecycle
      rw [if_pos ⟨hst, htime⟩]
    simp [h2]

/-- Concrete configuration fixture for C4: ResetLifecycle on, LifecycleTimeout 600 seconds. -/
def confC4 : ApplicationConf :=
  { deathNodeMark := "DEATH_NODE_MARK", delayDeleteSeconds := 0, resetLifecycle := true,
    lifecycleTimeout := 600, auroraURL := "" }

/-- Concrete environment fixture for C4, parameterised by the tick's clock; the instance stays Mesos-protected. -/
def envC4 (t : ℚ) : Env :=
  { now := t, mesosProtected := fun _ => true, instanceById := fun _ => some mW,
    claOk := fun _ => true, drainOk := true }

/-- Witness for C4: the instance death-marked at t=0 in TERMINATING_WAIT is heartbeated at the t=500s tick and not at the t=100s tick (timeout 600, percentage 0.7). -/
theorem c4_witness :
    Event.recordLifecycleActionHeartbeat mW.instanceId ∈
      (destroyInstanceAttempt confC4 (envC4 500) sW iW).1 ∧
    Event.recordLifecycleActionHeartbeat mW.instanceId ∉
      (destroyInstanceAttempt confC4 (envC4 100) sW iW).1 := by
  constructor
  · exact (c4_heartbeat_iff confC4 (envC4 500) sW iW mW rfl).mpr
      ⟨rfl, rfl, by norm_num [confC4, envC4, mW, LifeCycleRefreshTimeoutPercentage]⟩
  · intro h
    have h2 := (c4_heartbeat_iff confC4 (envC4 100) sW iW mW rfl).mp h
    have h3 := h2.2.2
    norm_num [confC4, envC4, mW, LifeCycleRefreshTimeoutPercentage] at h3

/-! ## Claim C8: the watcher with an empty candidate list -/

/-- Concrete unmarked instance fixture for C8. -/
def iU : WatchedInstance :=
  { instanceId := "i-1", ip := "10.0.0.1", marked := false, markOk := true }

/-- C8, evaluated at the failing input: with one undesired instance and a constraint filter that leaves no candidate, RemoveUndesiredInstances attempts no MarkToBeRemoved call but ends in the nil-victim dereference instead of returning cleanly; with zero undesired instances it returns nil. -/
theorem c8_empty_filter_nil_dereference :
    RemoveUndesiredInstances (fun _ => []) [iU] 1 =
      ([], [iU], WatcherOutcome.nilDereference) ∧
    RemoveUndesiredInstances (fun _ => []) [iU] 0 =
      ([], [iU], WatcherOutcome.returnedNil) :=
  ⟨rfl, rfl⟩

/-- Witness for C10 at a concrete fetch: the first page holds 100 tasks, the second page's fetch fails, and GetMesosTasks returns exactly the first page with no error. -/
theorem c10_witness :
    mesos.GetMesosTasks
        (fun n => if n = 0 then Except.ok (List.replicate 100 "task") else Except.error "boom") 1
      = Except.ok (List.replicate 100 "task") :=
  c10_getMesosTasks_error_only_first_page.2.2
    (fun n => if n = 0 then Except.ok (List.replicate 100 "task") else Except.error "boom")
    0 (List.replicate 100 "task") "boom" rfl (by simp) rfl

end Deathnode
